import Mathlib

/-!
Shallow embedding of the core game logic of `src/main.py` (a grid snake game):
the `Snake` class (movement, direction buffering, growth, collision checks),
the `Food` placement algorithm, and the per-tick controller step of `game_loop`.

Cells and direction vectors are pairs of integers, as in the source.  The
source's `random.choice(free_cells)` draws one element of the free-cell list;
we model the random draw by an index parameter `k : Nat`, reduced modulo the
list length, so every possible outcome of `random.choice` is some `k`.
Python `set` arguments (`occupied`, `snake_cells`) are modelled as lists used
only through membership, which matches how the source uses them.
-/

namespace SnakeGame

/-- `SCREEN_WIDTH = 600` from the source configuration. -/
def SCREEN_WIDTH : Int := 600

/-- `SCREEN_HEIGHT = 400` from the source configuration. -/
def SCREEN_HEIGHT : Int := 400

/-- `GRID_SIZE = 20` from the source configuration. -/
def GRID_SIZE : Int := 20

/-- `COLUMNS = SCREEN_WIDTH // GRID_SIZE`. -/
def COLUMNS : Int := SCREEN_WIDTH / GRID_SIZE

/-- `ROWS = SCREEN_HEIGHT // GRID_SIZE`. -/
def ROWS : Int := SCREEN_HEIGHT / GRID_SIZE

/-- Direction vector `UP = (0, -1)`. -/
def UP : Int × Int := (0, -1)

/-- Direction vector `DOWN = (0, 1)`. -/
def DOWN : Int × Int := (0, 1)

/-- Direction vector `LEFT = (-1, 0)`. -/
def LEFT : Int × Int := (-1, 0)

/-- Direction vector `RIGHT = (1, 0)`. -/
def RIGHT : Int × Int := (1, 0)

/-- State of the `Snake` class: `body` (head at index 0), committed
`direction`, `_pending_growth`, and the buffered `_next_direction`. -/
structure Snake where
  body : List (Int × Int)
  direction : Int × Int
  pending_growth : Int
  next_direction : Int × Int
deriving DecidableEq

/-- `Snake.__init__(start_pos)`: two-segment body, facing `RIGHT`. -/
def Snake.init (start_pos : Int × Int) : Snake :=
  { body := [start_pos, (start_pos.1 - 1, start_pos.2)]
    direction := RIGHT
    pending_growth := 0
    next_direction := RIGHT }

/-- The `head` property: `body[0]`. -/
def Snake.head (s : Snake) : Int × Int := s.body.headI

/-- `Snake._is_opposite(a, b)`: `a[0] == -b[0] and a[1] == -b[1]`. -/
def Snake.is_opposite (a b : Int × Int) : Bool :=
  decide (a.1 = -b.1) && decide (a.2 = -b.2)

/-- `Snake.set_direction(new_dir)`: buffer `new_dir` unless it is opposite
to the current committed direction. -/
def Snake.set_direction (s : Snake) (new_dir : Int × Int) : Snake :=
  if Snake.is_opposite new_dir s.direction then s
  else { s with next_direction := new_dir }

/-- `Snake.move()`: commit the buffered direction, push the new head, then
either consume one unit of pending growth or pop the tail. -/
def Snake.move (s : Snake) : Snake :=
  let dir := s.next_direction
  let new_head := (s.body.headI.1 + dir.1, s.body.headI.2 + dir.2)
  let grown := new_head :: s.body
  if 0 < s.pending_growth then
    { body := grown, direction := dir
      pending_growth := s.pending_growth - 1, next_direction := dir }
  else
    { body := grown.dropLast, direction := dir
      pending_growth := s.pending_growth, next_direction := dir }

/-- `Snake.grow(n=1)`: `_pending_growth += max(1, n)`. -/
def Snake.grow (s : Snake) (n : Int := 1) : Snake :=
  { s with pending_growth := s.pending_growth + max 1 n }

/-- `Snake.hits_wall()`: head outside `[0, COLUMNS) × [0, ROWS)`. -/
def Snake.hits_wall (s : Snake) : Bool :=
  decide (s.head.1 < 0) || decide (COLUMNS ≤ s.head.1) ||
  decide (s.head.2 < 0) || decide (ROWS ≤ s.head.2)

/-- `Snake.hits_self()`: `head in body[1:]`. -/
def Snake.hits_self (s : Snake) : Bool :=
  decide (s.head ∈ s.body.tail)

/-- `Snake.occupies()`: the set of body cells (as a list; only membership
is ever used by callers, matching Python set semantics). -/
def Snake.occupies (s : Snake) : List (Int × Int) := s.body

/-- The comprehension `[(x, y) for x in range(COLUMNS) for y in range(ROWS)]`. -/
def all_cells : List (Int × Int) :=
  (List.range COLUMNS.toNat).flatMap fun (x : Nat) =>
    (List.range ROWS.toNat).map fun (y : Nat) => ((x : Int), (y : Int))

/-- `Food._random_free_cell(occupied)`: filter the grid against `occupied`;
if no free cell remains return `(0, 0)`, otherwise return the element of the
free list picked by the random draw `k`. -/
def random_free_cell (occupied : List (Int × Int)) (k : Nat) : Int × Int :=
  let free_cells := all_cells.filter fun c => decide (c ∉ occupied)
  if free_cells.isEmpty then (0, 0)
  else free_cells.getD (k % free_cells.length) (0, 0)

/-- State of the `Food` class: its position. -/
structure Food where
  pos : Int × Int
deriving DecidableEq

/-- `Food.__init__(snake_cells)` with random draw `k`. -/
def Food.init (snake_cells : List (Int × Int)) (k : Nat) : Food :=
  ⟨random_free_cell snake_cells k⟩

/-- `Food.respawn(snake_cells)` with random draw `k`. -/
def Food.respawn (f : Food) (snake_cells : List (Int × Int)) (k : Nat) : Food :=
  ⟨random_free_cell snake_cells k⟩

/-- The controller state owned by `game_loop`: snake, food, score and the
`game_over` flag. -/
structure GameState where
  snake : Snake
  food : Food
  score : Int
  game_over : Bool
deriving DecidableEq

/-- `start_new_game()` with random draw `k` for the initial food placement. -/
def start_new_game (k : Nat) : GameState :=
  let start := (COLUMNS / 4, ROWS / 2)
  let snake := Snake.init start
  { snake := snake, food := Food.init snake.occupies k
    score := 0, game_over := false }

/-- One iteration of the update section of `game_loop` (the `if not
game_over:` block): move, set `game_over` on wall/self collision, and then
— unconditionally, as in the source — check food consumption. -/
def tick (g : GameState) (k : Nat) : GameState :=
  if g.game_over then g
  else
    let s := g.snake.move
    let over := s.hits_wall || s.hits_self
    if s.head = g.food.pos then
      let s2 := s.grow 1
      { snake := s2, food := g.food.respawn s2.occupies k
        score := g.score + 1, game_over := over }
    else
      { g with snake := s, game_over := over }

/-- One controller transition: a simulation tick, a buffered direction
change from a key event while playing, or a restart while game over. -/
inductive Step : GameState → GameState → Prop where
  | tick_step (g : GameState) (k : Nat) : Step g (tick g k)
  | dir_step (g : GameState) (d : Int × Int) : g.game_over = false →
      Step g { g with snake := g.snake.set_direction d }
  | restart_step (g : GameState) (k : Nat) : g.game_over = true →
      Step g (start_new_game k)

/-- A game state reachable from some fresh game by controller transitions. -/
def Reachable (g : GameState) : Prop :=
  ∃ k0, Relation.ReflTransGen Step (start_new_game k0) g

/-- Whether a body covers every cell of the grid (the board-full case). -/
def covers_grid (body : List (Int × Int)) : Prop :=
  ∀ c ∈ all_cells, c ∈ body

/-- The food-placement invariant: the food is a grid cell, and it avoids the
snake body except possibly when the body fills the whole grid. -/
def food_ok (g : GameState) : Prop :=
  g.food.pos ∈ all_cells ∧
    (g.food.pos ∉ g.snake.body ∨ covers_grid g.snake.body)

lemma COLUMNS_eq : COLUMNS = 30 := by decide

lemma ROWS_eq : ROWS = 20 := by decide

lemma mem_all_cells {c : Int × Int} :
    c ∈ all_cells ↔ 0 ≤ c.1 ∧ c.1 < COLUMNS ∧ 0 ≤ c.2 ∧ c.2 < ROWS := by
  obtain ⟨a, b⟩ := c
  unfold all_cells
  rw [COLUMNS_eq, ROWS_eq, List.mem_flatMap]
  constructor
  · rintro ⟨x, hx, hmem⟩
    rw [List.mem_range] at hx
    rw [List.mem_map] at hmem
    obtain ⟨y, hy, heq⟩ := hmem
    rw [List.mem_range] at hy
    rw [Prod.mk.injEq] at heq
    obtain ⟨h1, h2⟩ := heq
    refine ⟨?_, ?_, ?_, ?_⟩ <;> omega
  · rintro ⟨h1, h2, h3, h4⟩
    refine ⟨a.toNat, ?_, ?_⟩
    · rw [List.mem_range]; omega
    · rw [List.mem_map]
      refine ⟨b.toNat, ?_, ?_⟩
      · rw [List.mem_range]; omega
      · rw [Prod.mk.injEq]
        constructor <;> omega

lemma random_free_cell_not_mem (occupied : List (Int × Int)) (k : Nat)
    (h : ∃ c ∈ all_cells, c ∉ occupied) :
    random_free_cell occupied k ∈ all_cells ∧
      random_free_cell occupied k ∉ occupied := by
  obtain ⟨c, hc, hco⟩ := h
  have hmem : c ∈ all_cells.filter fun c => decide (c ∉ occupied) := by
    simp only [List.mem_filter, decide_eq_true_eq]
    exact ⟨hc, hco⟩
  have hne : (all_cells.filter fun c => decide (c ∉ occupied)) ≠ [] :=
    List.ne_nil_of_mem hmem
  have hlen : 0 < (all_cells.filter fun c => decide (c ∉ occupied)).length :=
    List.length_pos.mpr hne
  have hidx := Nat.mod_lt k hlen
  have hres : random_free_cell occupied k =
      (all_cells.filter fun c => decide (c ∉ occupied)).getD
        (k % (all_cells.filter fun c => decide (c ∉ occupied)).length) (0, 0) := by
    simp only [random_free_cell, List.isEmpty_iff]
    rw [if_neg hne]
  have hget : random_free_cell occupied k ∈
      (all_cells.filter fun c => decide (c ∉ occupied)) := by
    rw [hres, List.getD_eq_getElem _ _ hidx]
    exact List.getElem_mem hidx
  have := List.mem_filter.mp hget
  exact ⟨this.1, by simpa using this.2⟩

lemma random_free_cell_full (occupied : List (Int × Int)) (k : Nat)
    (h : ∀ c ∈ all_cells, c ∈ occupied) :
    random_free_cell occupied k = (0, 0) := by
  have hnil : (all_cells.filter fun c => decide (c ∉ occupied)) = [] := by
    rw [List.filter_eq_nil_iff]
    intro c hc
    simpa using h c hc
  simp only [random_free_cell, hnil]
  rfl

lemma move_body_of_pos (s : Snake) (h : 0 < s.pending_growth) :
    s.move.body =
      (s.head.1 + s.next_direction.1, s.head.2 + s.next_direction.2) :: s.body ∧
    s.move.direction = s.next_direction ∧
    s.move.next_direction = s.next_direction ∧
    s.move.pending_growth = s.pending_growth - 1 := by
  simp only [Snake.move, Snake.head, if_pos h]
  refine ⟨?_, ?_, ?_, ?_⟩ <;> trivial

lemma move_body_of_nonpos (s : Snake) (h : ¬ 0 < s.pending_growth) :
    s.move.body =
      ((s.head.1 + s.next_direction.1, s.head.2 + s.next_direction.2) :: s.body).dropLast ∧
    s.move.direction = s.next_direction ∧
    s.move.next_direction = s.next_direction ∧
    s.move.pending_growth = s.pending_growth := by
  simp only [Snake.move, Snake.head, if_neg h]
  refine ⟨?_, ?_, ?_, ?_⟩ <;> trivial

lemma move_length (s : Snake) :
    s.move.body.length =
      if 0 < s.pending_growth then s.body.length + 1 else s.body.length := by
  by_cases h : 0 < s.pending_growth
  · rw [if_pos h, (move_body_of_pos s h).1, List.length_cons]
  · rw [if_neg h, (move_body_of_nonpos s h).1, List.length_dropLast, List.length_cons]
    omega

/-- C1: `move()` commits the buffered direction into the committed
direction, puts `newHead = head + direction` at index 0 of `body`, and then
either (pending growth positive) decrements `pending_growth` and keeps the
tail, so the length grows by exactly 1, or (no pending growth) removes the
last body element, leaving the length unchanged. -/
theorem claim_C1_move_spec (s : Snake) (h : s.body ≠ []) :
    s.move.direction = s.next_direction ∧
    s.move.body.headI =
      (s.head.1 + s.next_direction.1, s.head.2 + s.next_direction.2) ∧
    (0 < s.pending_growth →
      s.move.body =
        (s.head.1 + s.next_direction.1, s.head.2 + s.next_direction.2) :: s.body ∧
      s.move.body.length = s.body.length + 1 ∧
      s.move.pending_growth = s.pending_growth - 1) ∧
    (s.pending_growth ≤ 0 →
      s.move.body =
        (s.head.1 + s.next_direction.1, s.head.2 + s.next_direction.2) :: s.body.dropLast ∧
      s.move.body.length = s.body.length ∧
      s.move.pending_growth = s.pending_growth) := by
  by_cases hg : 0 < s.pending_growth
  · obtain ⟨hb, hd, _, hp⟩ := move_body_of_pos s hg
    refine ⟨hd, ?_, fun _ => ⟨hb, ?_, hp⟩, fun hle => absurd hg (by omega)⟩
    · rw [hb]; rfl
    · rw [hb, List.length_cons]
  · obtain ⟨hb, hd, _, hp⟩ := move_body_of_nonpos s hg
    have hb' : s.move.body =
        (s.head.1 + s.next_direction.1, s.head.2 + s.next_direction.2) :: s.body.dropLast := by
      rw [hb, List.dropLast_cons_of_ne_nil h]
    refine ⟨hd, ?_, fun hpos => absurd hpos hg, fun _ => ⟨hb', ?_, hp⟩⟩
    · rw [hb']; rfl
    · rw [hb, List.length_dropLast, List.length_cons]
      omega

/-- Witness for C1 at the freshly constructed snake. -/
theorem claim_C1_move_spec_witness :
    (Snake.init (7, 10)).body ≠ [] ∧
    ((Snake.init (7, 10)).move.direction = (Snake.init (7, 10)).next_direction ∧
    (Snake.init (7, 10)).move.body.headI =
      ((Snake.init (7, 10)).head.1 + (Snake.init (7, 10)).next_direction.1,
       (Snake.init (7, 10)).head.2 + (Snake.init (7, 10)).next_direction.2) ∧
    (0 < (Snake.init (7, 10)).pending_growth →
      (Snake.init (7, 10)).move.body =
        ((Snake.init (7, 10)).head.1 + (Snake.init (7, 10)).next_direction.1,
         (Snake.init (7, 10)).head.2 + (Snake.init (7, 10)).next_direction.2) ::
          (Snake.init (7, 10)).body ∧
      (Snake.init (7, 10)).move.body.length = (Snake.init (7, 10)).body.length + 1 ∧
      (Snake.init (7, 10)).move.pending_growth = (Snake.init (7, 10)).pending_growth - 1) ∧
    ((Snake.init (7, 10)).pending_growth ≤ 0 →
      (Snake.init (7, 10)).move.body =
        ((Snake.init (7, 10)).head.1 + (Snake.init (7, 10)).next_direction.1,
         (Snake.init (7, 10)).head.2 + (Snake.init (7, 10)).next_direction.2) ::
          (Snake.init (7, 10)).body.dropLast ∧
      (Snake.init (7, 10)).move.body.length = (Snake.init (7, 10)).body.length ∧
      (Snake.init (7, 10)).move.pending_growth = (Snake.init (7, 10)).pending_growth)) :=
  ⟨by decide, claim_C1_move_spec (Snake.init (7, 10)) (by decide)⟩

lemma set_direction_direction (s : Snake) (d : Int × Int) :
    (s.set_direction d).direction = s.direction := by
  unfold Snake.set_direction
  split <;> rfl

lemma set_direction_body (s : Snake) (d : Int × Int) :
    (s.set_direction d).body = s.body := by
  unfold Snake.set_direction
  split <;> rfl

lemma set_direction_set_direction (s : Snake) (d : Int × Int) :
    (s.set_direction d).set_direction d = s.set_direction d := by
  by_cases h : Snake.is_opposite d s.direction = true
  · simp [Snake.set_direction, h]
  · simp [Snake.set_direction, h]

/-- C4: `set_direction(d)` buffers `d` unless `d` is the exact opposite of
the committed direction; a rejected call leaves the snake unchanged; the
last accepted call before a `move` owns the buffer; and calling it with the
exact opposite of the committed direction never changes the committed
direction after the next `move`. -/
theorem claim_C4_set_direction_spec (s : Snake) (d : Int × Int) :
    (Snake.is_opposite d s.direction = true → s.set_direction d = s) ∧
    (Snake.is_opposite d s.direction = false →
      s.set_direction d = { s with next_direction := d }) ∧
    (∀ d1 : Int × Int, Snake.is_opposite d s.direction = false →
      ((s.set_direction d1).set_direction d).next_direction = d) ∧
    s.set_direction (-s.direction.1, -s.direction.2) = s ∧
    (s.set_direction (-s.direction.1, -s.direction.2)).move.direction =
      s.move.direction := by
  refine ⟨?_, ?_, ?_, ?_, ?_⟩
  · intro h
    simp [Snake.set_direction, h]
  · intro h
    simp [Snake.set_direction, h]
  · intro d1 h
    generalize hgen : s.set_direction d1 = t
    have h2 : Snake.is_opposite d t.direction = false := by
      rw [← hgen, set_direction_direction]
      exact h
    simp [Snake.set_direction, h2]
  · simp [Snake.set_direction, Snake.is_opposite]
  · rw [show s.set_direction (-s.direction.1, -s.direction.2) = s by
      simp [Snake.set_direction, Snake.is_opposite]]

/-- Witness for C4 at the fresh snake with an accepted `DOWN` request. -/
theorem claim_C4_set_direction_spec_witness :
    Snake.is_opposite DOWN (Snake.init (7, 10)).direction = false ∧
    (Snake.init (7, 10)).set_direction DOWN =
      { Snake.init (7, 10) with next_direction := DOWN } :=
  ⟨by decide, (claim_C4_set_direction_spec (Snake.init (7, 10)) DOWN).2.1 (by decide)⟩

/-- C8: issuing the same direction intent `n ≥ 1` times between two ticks
yields exactly the state of issuing it once. -/
theorem claim_C8_set_direction_idempotent (s : Snake) (d : Int × Int)
    (n : Nat) (h : 1 ≤ n) :
    (fun t : Snake => t.set_direction d)^[n] s = s.set_direction d := by
  induction n with
  | zero => exact absurd h (by omega)
  | succ m ih =>
    rcases Nat.eq_zero_or_pos m with hm | hm
    · subst hm
      rfl
    · rw [Function.iterate_succ_apply', ih hm]
      exact set_direction_set_direction s d

/-- Witness for C8: two identical `DOWN` requests collapse to one. -/
theorem claim_C8_set_direction_idempotent_witness :
    1 ≤ 2 ∧
    (fun t : Snake => t.set_direction DOWN)^[2] (Snake.init (7, 10)) =
      (Snake.init (7, 10)).set_direction DOWN :=
  ⟨by decide,
    claim_C8_set_direction_idempotent (Snake.init (7, 10)) DOWN 2 (by decide)⟩

/-- C9: the fresh game's snake starts at `(COLUMNS/4, ROWS/2) = (7, 10)`
with a 2-segment body facing `RIGHT`; after 3 `move()` calls and no
direction change or growth, the length is still 2 and the head is at
`(COLUMNS/4 + 3, ROWS/2) = (10, 10)`. -/
theorem claim_C9_three_moves :
    (start_new_game 0).snake = Snake.init (COLUMNS / 4, ROWS / 2) ∧
    ((COLUMNS / 4 : Int), (ROWS / 2 : Int)) = ((7 : Int), (10 : Int)) ∧
    (Snake.init (COLUMNS / 4, ROWS / 2)).body.length = 2 ∧
    (Snake.init (COLUMNS / 4, ROWS / 2)).direction = RIGHT ∧
    (Snake.init (COLUMNS / 4, ROWS / 2)).move.move.move.body.length = 2 ∧
    (Snake.init (COLUMNS / 4, ROWS / 2)).move.move.move.head =
      (COLUMNS / 4 + 3, ROWS / 2) := by
  refine ⟨rfl, by decide, by decide, by decide, by decide, by decide⟩

/-- C10: `grow(n)` is total over the integers and always adds
`max(1, n) ≥ 1` to the pending growth, so every call buys at least one
future unit of growth. -/
theorem claim_C10_grow_total (s : Snake) (n : Int) :
    (s.grow n).pending_growth = s.pending_growth + max 1 n ∧
    1 ≤ max 1 n ∧
    s.pending_growth + 1 ≤ (s.grow n).pending_growth ∧
    (s.grow n).body = s.body := by
  refine ⟨rfl, le_max_left 1 n, ?_, rfl⟩
  have h := le_max_left 1 n
  show s.pending_growth + 1 ≤ s.pending_growth + max 1 n
  omega

lemma iterate_move_growth (i : Nat) (s : Snake) (g : Nat)
    (h : s.pending_growth = (g : Int)) (hi : i ≤ g) :
    (Snake.move^[i] s).pending_growth = ((g - i : Nat) : Int) ∧
    (Snake.move^[i] s).body.length = s.body.length + i := by
  induction i generalizing s g with
  | zero =>
    refine ⟨by simpa using h, rfl⟩
  | succ m ih =>
    have hpos : 0 < s.pending_growth := by omega
    obtain ⟨hb, _, _, hp⟩ := move_body_of_pos s hpos
    have h1 : (s.move).pending_growth = ((g - 1 : Nat) : Int) := by
      rw [hp, h]
      omega
    have h2 := ih s.move (g - 1) h1 (by omega)
    rw [Function.iterate_succ_apply]
    constructor
    · rw [h2.1]
      congr 1
      omega
    · rw [h2.2, hb, List.length_cons]
      omega

/-- C5: `move()` never decreases body length; `grow(n)` adds `max(1, n)`
to the pending growth without touching the body; and with pending growth
`g`, each of the next `g` moves lengthens the body by exactly 1 while the
`(g+1)`-th leaves the length unchanged. -/
theorem claim_C5_growth_schedule :
    (∀ s : Snake, s.body.length ≤ s.move.body.length) ∧
    (∀ (s : Snake) (n : Int),
      (s.grow n).pending_growth = s.pending_growth + max 1 n ∧
      (s.grow n).body = s.body) ∧
    (∀ (s : Snake) (g : Nat), s.pending_growth = (g : Int) →
      (∀ i : Nat, i < g →
        (Snake.move^[i + 1] s).body.length =
          (Snake.move^[i] s).body.length + 1) ∧
      (Snake.move^[g + 1] s).body.length = (Snake.move^[g] s).body.length) := by
  refine ⟨?_, fun s n => ⟨rfl, rfl⟩, ?_⟩
  · intro s
    rw [move_length s]
    split <;> omega
  · intro s g h
    constructor
    · intro i hi
      have hcur := iterate_move_growth i s g h (by omega)
      have hnext := iterate_move_growth (i + 1) s g h (by omega)
      rw [hcur.2, hnext.2]
      omega
    · have hcur := iterate_move_growth g s g h le_rfl
      have hzero : (Snake.move^[g] s).pending_growth = 0 := by
        rw [hcur.1]
        omega
      rw [Function.iterate_succ_apply', move_length]
      rw [if_neg (by omega)]

/-- Witness for C5's growth schedule after `grow(2)` on the fresh snake. -/
theorem claim_C5_growth_schedule_witness :
    ((Snake.init (7, 10)).grow 2).pending_growth = ((2 : Nat) : Int) ∧
    ((∀ i : Nat, i < 2 →
        (Snake.move^[i + 1] ((Snake.init (7, 10)).grow 2)).body.length =
          (Snake.move^[i] ((Snake.init (7, 10)).grow 2)).body.length + 1) ∧
      (Snake.move^[2 + 1] ((Snake.init (7, 10)).grow 2)).body.length =
        (Snake.move^[2] ((Snake.init (7, 10)).grow 2)).body.length) :=
  ⟨by decide, claim_C5_growth_schedule.2.2 ((Snake.init (7, 10)).grow 2) 2 (by decide)⟩

lemma grow_body (s : Snake) (n : Int) : (s.grow n).body = s.body := rfl

lemma length_le_move_length (s : Snake) : s.body.length ≤ s.move.body.length := by
  rw [move_length]
  split <;> omega

lemma tick_of_game_over (g : GameState) (k : Nat) (h : g.game_over = true) :
    tick g k = g := by
  simp [tick, h]

lemma tick_of_eat (g : GameState) (k : Nat) (h : g.game_over = false)
    (he : g.snake.move.head = g.food.pos) :
    tick g k =
      { snake := g.snake.move.grow 1
        food := g.food.respawn (g.snake.move.grow 1).occupies k
        score := g.score + 1
        game_over := g.snake.move.hits_wall || g.snake.move.hits_self } := by
  simp [tick, h, he]

lemma tick_of_no_eat (g : GameState) (k : Nat) (h : g.game_over = false)
    (he : g.snake.move.head ≠ g.food.pos) :
    tick g k =
      { g with snake := g.snake.move
               game_over := g.snake.move.hits_wall || g.snake.move.hits_self } := by
  simp [tick, h, he]

/-- C3: `respawn` always yields a grid cell outside the occupied set when
one exists, and yields the fixed fallback `(0, 0)` when the occupied set
covers the whole grid. -/
theorem claim_C3_respawn_free (f : Food) (occupied : List (Int × Int)) (k : Nat) :
    ((∃ c ∈ all_cells, c ∉ occupied) →
      (f.respawn occupied k).pos ∈ all_cells ∧
      (f.respawn occupied k).pos ∉ occupied) ∧
    ((∀ c ∈ all_cells, c ∈ occupied) → (f.respawn occupied k).pos = (0, 0)) :=
  ⟨random_free_cell_not_mem occupied k, random_free_cell_full occupied k⟩

/-- Witness for C3 with a one-cell occupied set. -/
theorem claim_C3_respawn_free_witness :
    (∃ c ∈ all_cells, c ∉ ([((7 : Int), (10 : Int))] : List (Int × Int))) ∧
    (Food.respawn ⟨(0, 0)⟩ [((7 : Int), (10 : Int))] 0).pos ∈ all_cells ∧
    (Food.respawn ⟨(0, 0)⟩ [((7 : Int), (10 : Int))] 0).pos ∉
      ([((7 : Int), (10 : Int))] : List (Int × Int)) :=
  ⟨⟨(0, 0), by decide, by decide⟩,
    (claim_C3_respawn_free ⟨(0, 0)⟩ [((7 : Int), (10 : Int))] 0).1
      ⟨(0, 0), by decide, by decide⟩⟩

/-- C6: the snake body has length ≥ 2 in every reachable state: a fresh
snake has a 2-segment body, and `set_direction`, `move`, `grow` and the
controller tick all preserve length ≥ 2; consequently every reachable game
state has a snake of length ≥ 2. -/
theorem claim_C6_length_invariant :
    (∀ p : Int × Int, (Snake.init p).body.length = 2) ∧
    (∀ (s : Snake) (d : Int × Int), 2 ≤ s.body.length →
      2 ≤ (s.set_direction d).body.length) ∧
    (∀ s : Snake, 2 ≤ s.body.length → 2 ≤ s.move.body.length) ∧
    (∀ (s : Snake) (n : Int), 2 ≤ s.body.length → 2 ≤ (s.grow n).body.length) ∧
    (∀ (g : GameState) (k : Nat), 2 ≤ g.snake.body.length →
      2 ≤ (tick g k).snake.body.length) ∧
    (∀ g : GameState, Reachable g → 2 ≤ g.snake.body.length) := by
  have hinit : ∀ p : Int × Int, (Snake.init p).body.length = 2 := fun p => rfl
  have hsd : ∀ (s : Snake) (d : Int × Int), 2 ≤ s.body.length →
      2 ≤ (s.set_direction d).body.length := by
    intro s d h
    rw [set_direction_body]
    exact h
  have hmv : ∀ s : Snake, 2 ≤ s.body.length → 2 ≤ s.move.body.length :=
    fun s h => le_trans h (length_le_move_length s)
  have htick : ∀ (g : GameState) (k : Nat), 2 ≤ g.snake.body.length →
      2 ≤ (tick g k).snake.body.length := by
    intro g k h
    by_cases hgo : g.game_over = true
    · rw [tick_of_game_over g k hgo]
      exact h
    · rw [Bool.not_eq_true] at hgo
      by_cases he : g.snake.move.head = g.food.pos
      · rw [tick_of_eat g k hgo he]
        exact hmv g.snake h
      · rw [tick_of_no_eat g k hgo he]
        exact hmv g.snake h
  refine ⟨hinit, hsd, hmv, fun s n h => h, htick, ?_⟩
  rintro g ⟨k0, htrans⟩
  induction htrans with
  | refl => exact le_of_eq (hinit _).symm
  | tail _ hstep ih =>
    cases hstep with
    | tick_step k => exact htick _ k ih
    | dir_step d hgo => exact hsd _ d ih
    | restart_step k hgo => exact le_of_eq (hinit _).symm

/-- Witness for C6 at the fresh game and its first tick. -/
theorem claim_C6_length_invariant_witness :
    2 ≤ (start_new_game 0).snake.body.length ∧
    2 ≤ (tick (start_new_game 0) 0).snake.body.length ∧
    2 ≤ (start_new_game 0).snake.body.length :=
  ⟨by decide,
    claim_C6_length_invariant.2.2.2.2.1 (start_new_game 0) 0 (by decide),
    claim_C6_length_invariant.2.2.2.2.2 (start_new_game 0)
      ⟨0, Relation.ReflTransGen.refl⟩⟩

lemma hits_wall_iff (s : Snake) :
    s.hits_wall = true ↔
      (s.head.1 < 0 ∨ COLUMNS ≤ s.head.1 ∨ s.head.2 < 0 ∨ ROWS ≤ s.head.2) := by
  simp only [Snake.hits_wall, Bool.or_eq_true, decide_eq_true_eq]
  tauto

lemma head_mem_of_not_hits_wall (s : Snake) (h : s.hits_wall = false) :
    s.head ∈ all_cells := by
  have h' : ¬ s.hits_wall = true := by simp [h]
  rw [hits_wall_iff] at h'
  push_neg at h'
  rw [mem_all_cells]
  omega

lemma hits_self_iff (s : Snake) : s.hits_self = true ↔ s.head ∈ s.body.tail := by
  simp [Snake.hits_self]

lemma move_head_eq (s : Snake) (h : s.body ≠ []) :
    s.move.head =
      (s.head.1 + s.next_direction.1, s.head.2 + s.next_direction.2) := by
  by_cases hg : 0 < s.pending_growth
  · rw [Snake.head, (move_body_of_pos s hg).1]
    rfl
  · rw [Snake.head, (move_body_of_nonpos s hg).1,
      List.dropLast_cons_of_ne_nil h]
    rfl

lemma move_tail_subset (s : Snake) (c : Int × Int)
    (hc : c ∈ s.move.body.tail) : c ∈ s.body := by
  by_cases hg : 0 < s.pending_growth
  · rw [(move_body_of_pos s hg).1, List.tail_cons] at hc
    exact hc
  · rw [(move_body_of_nonpos s hg).1] at hc
    rcases eq_or_ne s.body [] with hb | hb
    · rw [hb] at hc
      simp at hc
    · rw [List.dropLast_cons_of_ne_nil hb, List.tail_cons] at hc
      exact (List.dropLast_sublist s.body).subset hc

lemma move_mem (s : Snake) (c : Int × Int) (hc : c ∈ s.move.body) :
    c = s.move.head ∨ c ∈ s.body := by
  by_cases hg : 0 < s.pending_growth
  · rw [(move_body_of_pos s hg).1] at hc
    rcases List.mem_cons.mp hc with h | h
    · left
      have hmh : s.move.head =
          (s.head.1 + s.next_direction.1, s.head.2 + s.next_direction.2) := by
        rw [Snake.head, (move_body_of_pos s hg).1]
        rfl
      rw [h, hmh]
    · exact Or.inr h
  · rw [(move_body_of_nonpos s hg).1] at hc
    rcases eq_or_ne s.body [] with hb | hb
    · rw [hb] at hc
      simp at hc
    · rw [List.dropLast_cons_of_ne_nil hb] at hc
      rcases List.mem_cons.mp hc with h | h
      · left
        have hmh : s.move.head =
            (s.head.1 + s.next_direction.1, s.head.2 + s.next_direction.2) := by
          rw [Snake.head, (move_body_of_nonpos s hg).1,
            List.dropLast_cons_of_ne_nil hb]
          rfl
        rw [h, hmh]
      · exact Or.inr ((List.dropLast_sublist s.body).subset h)

lemma move_covers (s : Snake) (hcov : covers_grid s.body)
    (hw : s.move.hits_wall = false) (hs : s.move.hits_self = false) :
    covers_grid s.move.body := by
  have hb : s.body ≠ [] := by
    intro hnil
    have := hcov (0, 0) (by decide)
    rw [hnil] at this
    simp at this
  intro c hc
  have hcb : c ∈ s.body := hcov c hc
  by_cases hg : 0 < s.pending_growth
  · rw [(move_body_of_pos s hg).1]
    exact List.mem_cons_of_mem _ hcb
  · -- the head must land exactly on the dropped tail cell, otherwise the
    -- move would hit the wall or the snake itself
    have hhead : s.move.head ∈ s.body := hcov _ (head_mem_of_not_hits_wall _ hw)
    have hbody' : s.move.body =
        (s.head.1 + s.next_direction.1, s.head.2 + s.next_direction.2) ::
          s.body.dropLast := by
      rw [(move_body_of_nonpos s hg).1, List.dropLast_cons_of_ne_nil hb]
    have hheadeq := move_head_eq s hb
    have htail : s.move.head ∉ s.body.dropLast := by
      intro hmem
      have : s.move.head ∈ s.move.body.tail := by
        rw [hbody', List.tail_cons]
        exact hmem
      rw [← hits_self_iff] at this
      rw [hs] at this
      exact Bool.false_ne_true this
    have hlast : s.move.head = s.body.getLast hb := by
      have hsplit := List.dropLast_append_getLast hb
      rw [← hsplit] at hhead
      rcases List.mem_append.mp hhead with h | h
      · exact absurd h htail
      · simpa using h
    rw [hbody']
    have hsplit := List.dropLast_append_getLast hb
    rw [← hsplit] at hcb
    rcases List.mem_append.mp hcb with h | h
    · exact List.mem_cons_of_mem _ h
    · have : c = s.body.getLast hb := by simpa using h
      rw [this, ← hlast, hheadeq]
      exact List.mem_cons_self _ _

lemma zero_mem_all_cells : ((0 : Int), (0 : Int)) ∈ all_cells := by decide

lemma start_food_ok (k : Nat) : food_ok (start_new_game k) := by
  have hex : ∃ c ∈ all_cells,
      c ∉ (Snake.init (COLUMNS / 4, ROWS / 2)).occupies :=
    ⟨(0, 0), zero_mem_all_cells, by decide⟩
  have h := random_free_cell_not_mem _ k hex
  exact ⟨h.1, Or.inl h.2⟩

lemma step_preserves_food (g g' : GameState) (hstep : Step g g')
    (h : g.game_over = true ∨ food_ok g) :
    g'.game_over = true ∨ food_ok g' := by
  cases hstep with
  | restart_step k hgo => exact Or.inr (start_food_ok k)
  | dir_step d hgo =>
    rcases h with h | h
    · rw [hgo] at h
      exact absurd h (by simp)
    · right
      unfold food_ok covers_grid
      rw [show ({ g with snake := g.snake.set_direction d } :
          GameState).snake.body = g.snake.body from set_direction_body _ _]
      exact h
  | tick_step k =>
    by_cases hgo : g.game_over = true
    · rw [tick_of_game_over g k hgo]
      exact h
    · have hgo' : g.game_over = false := by simpa using hgo
      have hf : food_ok g := by
        rcases h with h | h
        · exact absurd h hgo
        · exact h
      by_cases he : g.snake.move.head = g.food.pos
      · rw [tick_of_eat g k hgo' he]
        right
        by_cases hfull : ∀ c ∈ all_cells, c ∈ (g.snake.move.grow 1).occupies
        · constructor
          · show (g.food.respawn (g.snake.move.grow 1).occupies k).pos ∈ all_cells
            rw [show (g.food.respawn (g.snake.move.grow 1).occupies k).pos = (0, 0)
              from random_free_cell_full _ k hfull]
            exact zero_mem_all_cells
          · right
            intro c hc
            exact hfull c hc
        · push_neg at hfull
          obtain ⟨c, hc1, hc2⟩ := hfull
          have h2 := random_free_cell_not_mem _ k ⟨c, hc1, hc2⟩
          exact ⟨h2.1, Or.inl h2.2⟩
      · rw [tick_of_no_eat g k hgo' he]
        by_cases hov : (g.snake.move.hits_wall || g.snake.move.hits_self) = true
        · exact Or.inl hov
        · right
          have hov' : g.snake.move.hits_wall = false ∧
              g.snake.move.hits_self = false := by
            simpa using hov
          refine ⟨hf.1, ?_⟩
          rcases hf.2 with hnot | hcov
          · left
            intro hmem
            rcases move_mem g.snake _ hmem with h1 | h1
            · exact he h1.symm
            · exact hnot h1
          · right
            intro c hc
            exact move_covers g.snake hcov hov'.1 hov'.2 c hc

lemma reachable_food_inv (g : GameState) (h : Reachable g) :
    g.game_over = true ∨ food_ok g := by
  obtain ⟨k0, htrans⟩ := h
  induction htrans with
  | refl => exact Or.inr (start_food_ok k0)
  | tail _ hstep ih => exact step_preserves_food _ _ hstep ih

/-- C7 counterexample: when the snake occupies every grid cell, `respawn`
returns the fallback `(0, 0)`, which lies inside the occupied set, so a
respawn does not always exclude the snake's occupied cells. -/
theorem claim_C7_counterexample :
    (Food.respawn ⟨(5, 5)⟩ (Snake.mk all_cells RIGHT 0 RIGHT).occupies 0).pos =
      (0, 0) ∧
    (Food.respawn ⟨(5, 5)⟩ (Snake.mk all_cells RIGHT 0 RIGHT).occupies 0).pos ∈
      (Snake.mk all_cells RIGHT 0 RIGHT).occupies := by
  have hocc : ∀ s : Snake, s.occupies = s.body := fun s => rfl
  have hpos : ∀ (f : Food) (s : List (Int × Int)) (k : Nat),
      (Food.respawn f s k).pos = random_free_cell s k := fun f s k => rfl
  have h0 : (Food.respawn ⟨(5, 5)⟩
      (Snake.mk all_cells RIGHT 0 RIGHT).occupies 0).pos = (0, 0) := by
    rw [hpos, hocc]
    exact random_free_cell_full all_cells 0 (fun c hc => hc)
  refine ⟨h0, ?_⟩
  rw [h0, hocc]
  exact zero_mem_all_cells

/-- C7 (amended): a fresh game's food is a grid cell off the snake, and in
every reachable state that is still playing, the food is a grid cell that
avoids the snake body unless the body covers the entire grid — the board-
full fallback is the one exception to the claimed separation invariant. -/
theorem claim_C7_food_invariant :
    (∀ k : Nat, food_ok (start_new_game k)) ∧
    (∀ g : GameState, Reachable g → g.game_over = false →
      g.food.pos ∈ all_cells ∧
        (g.food.pos ∉ g.snake.body ∨ covers_grid g.snake.body)) := by
  refine ⟨start_food_ok, ?_⟩
  intro g hreach hgo
  rcases reachable_food_inv g hreach with h | h
  · rw [h] at hgo
    exact absurd hgo (by simp)
  · exact h

/-- Witness for C7 at the fresh game. -/
theorem claim_C7_food_invariant_witness :
    (start_new_game 0).game_over = false ∧
    ((start_new_game 0).food.pos ∈ all_cells ∧
      ((start_new_game 0).food.pos ∉ (start_new_game 0).snake.body ∨
        covers_grid (start_new_game 0).snake.body)) :=
  ⟨rfl, claim_C7_food_invariant.2 (start_new_game 0)
    ⟨0, Relation.ReflTransGen.refl⟩ rfl⟩

/-- A playing state in which the next move makes the head land on its own
body and simultaneously on the food (possible only because the food already
overlaps the snake, as after a board-full fallback). -/
def collision_eat_state : GameState :=
  { snake := { body := [(2, 1), (1, 1), (1, 2), (2, 2), (3, 2), (3, 1)]
               direction := DOWN, pending_growth := 0, next_direction := DOWN }
    food := ⟨(2, 2)⟩, score := 0, game_over := false }

/-- C2 counterexample: the source checks food consumption even on a
colliding tick, so in a state where the moved head both hits the body and
equals the food cell, the tick sets `game_over` and still increments the
score and calls `grow`. -/
theorem claim_C2_counterexample :
    collision_eat_state.snake.move.hits_self = true ∧
    (tick collision_eat_state 0).game_over = true ∧
    (tick collision_eat_state 0).score = collision_eat_state.score + 1 ∧
    (tick collision_eat_state 0).snake.pending_growth =
      collision_eat_state.snake.pending_growth + 1 := by
  refine ⟨by decide, by decide, by decide, by decide⟩

/-- C2 (amended): on a tick where the snake collides after `move()`, the
controller transitions to game over and — provided the food is a grid cell
not on the snake's body, as the separation invariant guarantees — performs
no further effects: the snake is exactly the moved snake (no `grow`), the
score is unchanged and the food is not respawned. -/
theorem claim_C2_collision_freezes (g : GameState) (k : Nat)
    (hgo : g.game_over = false)
    (hfood : g.food.pos ∈ all_cells)
    (hfree : g.food.pos ∉ g.snake.body)
    (hcol : g.snake.move.hits_wall = true ∨ g.snake.move.hits_self = true) :
    tick g k = { g with snake := g.snake.move, game_over := true } ∧
    (tick g k).game_over = true ∧
    (tick g k).score = g.score ∧
    (tick g k).food = g.food ∧
    (tick g k).snake = g.snake.move := by
  have hne : g.snake.move.head ≠ g.food.pos := by
    intro heq
    rcases hcol with hw | hs
    · have hmem : g.snake.move.head ∈ all_cells := by
        rw [heq]
        exact hfood
      rw [mem_all_cells] at hmem
      rw [hits_wall_iff] at hw
      omega
    · rw [hits_self_iff] at hs
      have hsub := move_tail_subset g.snake _ hs
      rw [heq] at hsub
      exact hfree hsub
  have hover : (g.snake.move.hits_wall || g.snake.move.hits_self) = true := by
    rcases hcol with hw | hs
    · simp [hw]
    · simp [hs]
  rw [tick_of_no_eat g k hgo hne, hover]
  exact ⟨rfl, rfl, rfl, rfl, rfl⟩

/-- A playing state whose next move runs the snake head into the wall. -/
def wall_state : GameState :=
  { snake := { body := [(0, 5), (1, 5)], direction := LEFT
               pending_growth := 0, next_direction := LEFT }
    food := ⟨(3, 3)⟩, score := 0, game_over := false }

/-- Witness for the amended C2 at a wall collision. -/
theorem claim_C2_collision_freezes_witness :
    wall_state.game_over = false ∧
    wall_state.food.pos ∈ all_cells ∧
    wall_state.food.pos ∉ wall_state.snake.body ∧
    (wall_state.snake.move.hits_wall = true ∨
      wall_state.snake.move.hits_self = true) ∧
    tick wall_state 0 =
      { wall_state with snake := wall_state.snake.move, game_over := true } :=
  ⟨rfl, by decide, by decide, Or.inl (by decide),
    (claim_C2_collision_freezes wall_state 0 rfl (by decide) (by decide)
      (Or.inl (by decide))).1⟩

end SnakeGame
